import Mathlib

/-!
Shallow embedding of the Blog-AggreGATOR command-line RSS aggregator
(`main.go`, `rss.go`, `internal/config/config.go`).  Database and network
collaborators are modelled as oracle records of result-returning functions;
handlers are instrumented to return the ordered list of store calls they
make, the final in-memory configuration state, and their Go result.
-/

namespace Gator

/-- Errors returned by the persistent store, as the Go code distinguishes
them: `uniqueViolation` models a `pq.Error` with code 23505, `noRows`
models `sql.ErrNoRows`, and `other` is any remaining opaque failure. -/
inductive DbErr where
  | uniqueViolation
  | noRows
  | other (code : Nat)
deriving DecidableEq

/-- A Go `error` value as the handlers produce them: either a store error
propagated unchanged, or a message built with `errors.New` / `fmt.Errorf`. -/
inductive GoError where
  | dbErr (e : DbErr)
  | strErr (msg : String)
deriving DecidableEq

/-- `internal/config.Config`: the preferences record. -/
structure Config where
  dbUrl : String
  currentUserName : String
deriving DecidableEq

/-- The in-process application state reachable from every handler
(`type state struct` in `main.go`); the `db` member is modelled separately
as an oracle record. -/
structure AppState where
  cfg : Config
deriving DecidableEq

/-- `type command struct`: a parsed command name with its arguments. -/
structure Command where
  name : String
  args : List String
deriving DecidableEq

/-- `database.User` (the fields the handlers read). -/
structure User where
  id : Nat
  name : String
deriving DecidableEq

/-- `database.Feed` (the fields the handlers read). -/
structure Feed where
  id : Nat
  name : String
  url : String
deriving DecidableEq

/-- Row returned by `CreateFeedFollow` (joined user and feed names). -/
structure FeedFollowRow where
  userName : String
  feedName : String
deriving DecidableEq

/-- Row returned by `GetFeedFollowsForUser`. -/
structure FollowRow where
  feedName : String
deriving DecidableEq

/-- `RSSItem` from `rss.go`. -/
structure RSSItem where
  title : String
  link : String
  description : String
  pubDate : String
deriving DecidableEq

/-- The channel part of `RSSFeed` from `rss.go`. -/
structure RSSChannel where
  title : String
  link : String
  description : String
  item : List RSSItem
deriving DecidableEq

/-- `RSSFeed` from `rss.go`. -/
structure RSSFeed where
  channel : RSSChannel
deriving DecidableEq

/-! ## The command router (`commands.register` / `commands.run`) -/

/-- The shape of a registered handler: `func(*state, command) error`. -/
def CmdHandler : Type := AppState → Command → Except GoError Unit

/-- The `handlers` map of the `commands` struct, modelled as a partial
function from command names, exactly the lookup structure of a Go map. -/
def HandlersMap : Type := String → Option CmdHandler

/-- `commands.register`: a Go map insert — the new binding shadows any
previous binding for the same name. -/
def registerCmd (m : HandlersMap) (name : String) (f : CmdHandler) : HandlersMap :=
  fun n => if n = name then some f else m n

/-- `commands.run`: look the command name up; absent names fail with the
"unknown command" error carrying the name, otherwise the handler's result
is returned verbatim. -/
def runCmd (m : HandlersMap) (s : AppState) (cmd : Command) : Except GoError Unit :=
  match m cmd.name with
  | none => .error (.strErr ("unknown command: " ++ cmd.name))
  | some h => h s cmd

/-! ## The date normalizer (`parsePubDate`) -/

/-- A parsed publication timestamp: the structured value Go's `time.Parse`
yields for the layouts below (named zones carry offset 0). -/
structure GoTime where
  year : Nat
  month : Nat
  day : Nat
  hour : Nat
  minute : Nat
  second : Nat
  offsetMinutes : Int
deriving DecidableEq

/-- The three-letter weekday names accepted by the RFC-1123 layouts. -/
def weekdayNames : List String :=
  ["Mon", "Tue", "Wed", "Thu", "Fri", "Sat", "Sun"]

/-- Three-letter month name to month number. -/
def monthNum (m : String) : Option Nat :=
  if m = "Jan" then some 1
  else if m = "Feb" then some 2
  else if m = "Mar" then some 3
  else if m = "Apr" then some 4
  else if m = "May" then some 5
  else if m = "Jun" then some 6
  else if m = "Jul" then some 7
  else if m = "Aug" then some 8
  else if m = "Sep" then some 9
  else if m = "Oct" then some 10
  else if m = "Nov" then some 11
  else if m = "Dec" then some 12
  else none

/-- Decimal digit value of a character, when it is a digit. -/
def digitVal (c : Char) : Option Nat :=
  if c.isDigit then some (c.toNat - 48) else none

/-- Read exactly two decimal digits. -/
def parse2D : List Char → Option (Nat × List Char)
  | a :: b :: rest =>
    match digitVal a, digitVal b with
    | some x, some y => some (10 * x + y, rest)
    | _, _ => none
  | _ => none

/-- Read exactly four decimal digits. -/
def parse4D : List Char → Option (Nat × List Char)
  | a :: b :: c :: d :: rest =>
    match digitVal a, digitVal b, digitVal c, digitVal d with
    | some x, some y, some z, some w => some (1000 * x + 100 * y + 10 * z + w, rest)
    | _, _, _, _ => none
  | _ => none

/-- Consume one expected character. -/
def expectChar (c : Char) : List Char → Option (List Char)
  | x :: rest => if x = c then some rest else none
  | [] => none

/-- Consume a leading weekday name followed by a comma and a space, as in
the `Mon, ` prefix of the RFC-1123 layouts. -/
def dropWeekday : List Char → Option (List Char)
  | a :: b :: c :: d :: e :: rest =>
    if weekdayNames.contains (String.mk [a, b, c]) ∧ d = ',' ∧ e = ' ' then
      some rest
    else none
  | _ => none

/-- Parse a numeric time zone of the `-0700` form into an offset in
minutes; the whole input must be consumed. -/
def parseNumZone : List Char → Option (Int × List Char)
  | s :: a :: b :: c :: d :: rest =>
    if s = '+' ∨ s = '-' then
      match digitVal a, digitVal b, digitVal c, digitVal d with
      | some x, some y, some z, some w =>
        let minutes : Int := 60 * (10 * x + y) + (10 * z + w)
        some (if s = '-' then -minutes else minutes, rest)
      | _, _, _, _ => none
    else none
  | _ => none

/-- Parse a named time zone (such as `GMT` or `MST`): the rest of the
input must be a nonempty run of uppercase letters; the offset recorded is
0, as Go records for a non-local named zone. -/
def parseNamedZone (cs : List Char) : Option (Int × List Char) :=
  if cs ≠ [] ∧ cs.all (fun c => 'A' ≤ c ∧ c ≤ 'Z') then some (0, []) else none

/-- Parse the `02 Jan 2006 15:04:05 <zone>` core shared by the accepted
layouts, with either a numeric or a named zone, requiring the whole input
to be consumed and the calendar fields to be in range. -/
def parseCore (numericZone : Bool) (cs : List Char) : Option GoTime := do
  let (day, cs) ← parse2D cs
  let cs ← expectChar ' ' cs
  let (mon, cs) ←
    match cs with
    | a :: b :: c :: rest =>
      match monthNum (String.mk [a, b, c]) with
      | some m => some (m, rest)
      | none => none
    | _ => none
  let cs ← expectChar ' ' cs
  let (year, cs) ← parse4D cs
  let cs ← expectChar ' ' cs
  let (hh, cs) ← parse2D cs
  let cs ← expectChar ':' cs
  let (mi, cs) ← parse2D cs
  let cs ← expectChar ':' cs
  let (ss, cs) ← parse2D cs
  let cs ← expectChar ' ' cs
  let (off, cs) ← if numericZone then parseNumZone cs else parseNamedZone cs
  if cs = [] ∧ 1 ≤ day ∧ day ≤ 31 ∧ hh ≤ 23 ∧ mi ≤ 59 ∧ ss ≤ 59 then
    pure ⟨year, mon, day, hh, mi, ss, off⟩
  else none

/-- The accepted publication-date layouts, in order: RFC-1123 with numeric
zone (`Mon, 02 Jan 2006 15:04:05 -0700`), RFC-1123 with named zone
(`Mon, 02 Jan 2006 15:04:05 MST`), and the weekday-less named-zone variant
(`02 Jan 2006 15:04:05 MST`). -/
inductive PubLayout where
  | rfc1123z
  | rfc1123
  | dayFirstNamed
deriving DecidableEq

/-- Attempt one layout against a publication-date string. -/
def matchLayout : PubLayout → String → Option GoTime
  | .rfc1123z, s => (dropWeekday s.data).bind (parseCore true)
  | .rfc1123, s => (dropWeekday s.data).bind (parseCore false)
  | .dayFirstNamed, s => parseCore false s.data

/-- The fixed, ordered list of layouts the normalizer tries. -/
def pubDateLayouts : List PubLayout :=
  [.rfc1123z, .rfc1123, .dayFirstNamed]

/-- Try layouts in order, returning the first successful parse. -/
def tryLayouts (s : String) : List PubLayout → Option GoTime
  | [] => none
  | L :: rest =>
    match matchLayout L s with
    | some t => some t
    | none => tryLayouts s rest

/-- Modelled from the spec: the function `parsePubDate` is called from
`scrapeFeeds` in `main.go` but its defining file is not under `src/`; per
spec section 4.5 it attempts parsing against a fixed ordered list of
accepted layouts (at minimum RFC-1123 with numeric and named zone
variants, and per the spec's test vectors also the weekday-less
`02 Jan 2006 15:04:05 MST` form), returns the first successful parse, and
returns "absent" (`none`), not an error, when the string is empty or
matches no layout. -/
def parsePubDate (s : String) : Option GoTime :=
  tryLayouts s pubDateLayouts

/-! ## Store oracle and instrumented handlers -/

/-- The parameters of `CreatePost` that `scrapeFeeds` fills in from a
fetched item (`database.CreatePostParams`, minus the fresh id and the
wall-clock timestamps): nullable fields become `Option`. -/
structure PostParams where
  title : String
  url : String
  description : Option String
  publishedAt : Option GoTime
  feedId : Nat
deriving DecidableEq

/-- One observable access to the persistent store or the preferences
file, recorded in the order the handlers perform them. -/
inductive Effect where
  | getUser (name : String)
  | getFeedByURL (url : String)
  | createFeed (name url : String) (userId : Nat)
  | createFeedFollow (userId feedId : Nat)
  | deleteFeedFollow (userId feedId : Nat)
  | getFeedFollowsForUser (userId : Nat)
  | getPostsForUser (userId : Nat) (limit : Int)
  | createUser (name : String)
  | writeConfig (userName : String)
  | getNextFeedToFetch
  | markFeedFetched (feedId : Nat)
  | fetchFeed (url : String)
  | createPost (url : String)
deriving DecidableEq

/-- The oracle record standing for `database.Queries` plus the preferences
writer: each field fixes the result the collaborator would return for a
given call. -/
structure Db where
  getUser : String → Except DbErr User
  getFeedByURL : String → Except DbErr Feed
  createFeed : String → String → Nat → Except DbErr Feed
  createFeedFollow : Nat → Nat → Except DbErr FeedFollowRow
  deleteFeedFollow : Nat → Nat → Except DbErr Unit
  getFeedFollowsForUser : Nat → Except DbErr (List FollowRow)
  getPostsForUser : Nat → Int → Except DbErr (List PostParams)
  createUser : String → Except DbErr User
  writeConfig : Config → Except GoError Unit

/-- Result of one instrumented handler invocation: the store calls made in
order, the final in-memory state, and the Go result. -/
def HRes : Type := List Effect × AppState × Except GoError Unit

/-- `middlewareLoggedIn` from `main.go`: wraps a user-taking handler.  An
empty current-user name fails immediately; a `sql.ErrNoRows` lookup
failure becomes the "does not exist" message; any other lookup failure is
returned unchanged; otherwise the inner handler runs with the resolved
user. -/
def middlewareLoggedIn (db : Db)
    (handler : Db → AppState → Command → User → HRes)
    (s : AppState) (cmd : Command) : HRes :=
  let currentUser := s.cfg.currentUserName
  if currentUser = "" then
    ([], s, .error (.strErr "no current user set (run login first)"))
  else
    match db.getUser currentUser with
    | .error .noRows =>
      ([.getUser currentUser], s,
        .error (.strErr ("user " ++ currentUser ++ " does not exist")))
    | .error e => ([.getUser currentUser], s, .error (.dbErr e))
    | .ok user =>
      let r := handler db s cmd user
      (.getUser currentUser :: r.1, r.2.1, r.2.2)

/-- `handlerRegister` from `main.go`: creates the user; a unique violation
becomes "user X already exists"; other failures propagate; on success the
current-user name is set and the preferences are written. -/
def handlerRegister (db : Db) (s : AppState) (cmd : Command) : HRes :=
  match cmd.args with
  | name :: _ =>
    match db.createUser name with
    | .error .uniqueViolation =>
      ([.createUser name], s, .error (.strErr ("user " ++ name ++ " already exists")))
    | .error e => ([.createUser name], s, .error (.dbErr e))
    | .ok _user =>
      let s2 : AppState := { cfg := { s.cfg with currentUserName := name } }
      match db.writeConfig s2.cfg with
      | .error e => ([.createUser name, .writeConfig name], s2, .error e)
      | .ok _ => ([.createUser name, .writeConfig name], s2, .ok ())
  | [] => ([], s, .error (.strErr "register requires a username"))

/-- `handlerFollow` from `main.go`: arity check, then the inline
current-user gate, then user lookup, feed lookup and follow creation, a
unique violation becoming the "already follows" message. -/
def handlerFollow (db : Db) (s : AppState) (cmd : Command) : HRes :=
  match cmd.args with
  | [feedURL] =>
    let currentUser := s.cfg.currentUserName
    if currentUser = "" then
      ([], s, .error (.strErr "no current user set"))
    else
      match db.getUser currentUser with
      | .error e => ([.getUser currentUser], s, .error (.dbErr e))
      | .ok user =>
        match db.getFeedByURL feedURL with
        | .error e =>
          ([.getUser currentUser, .getFeedByURL feedURL], s, .error (.dbErr e))
        | .ok feed =>
          let t := [Effect.getUser currentUser, .getFeedByURL feedURL,
            .createFeedFollow user.id feed.id]
          match db.createFeedFollow user.id feed.id with
          | .error .uniqueViolation =>
            (t, s, .error (.strErr (user.name ++ " already follows " ++ feed.name)))
          | .error e => (t, s, .error (.dbErr e))
          | .ok _ff => (t, s, .ok ())
  | _ => ([], s, .error (.strErr "follow requires a url"))

/-- `handlerFollowing` from `main.go`: arity check, inline current-user
gate, user lookup, then the follow listing. -/
def handlerFollowing (db : Db) (s : AppState) (cmd : Command) : HRes :=
  match cmd.args with
  | [] =>
    let currentUser := s.cfg.currentUserName
    if currentUser = "" then
      ([], s, .error (.strErr "no current user set"))
    else
      match db.getUser currentUser with
      | .error e => ([.getUser currentUser], s, .error (.dbErr e))
      | .ok user =>
        match db.getFeedFollowsForUser user.id with
        | .error e =>
          ([.getUser currentUser, .getFeedFollowsForUser user.id], s, .error (.dbErr e))
        | .ok _follows =>
          ([.getUser currentUser, .getFeedFollowsForUser user.id], s, .ok ())
  | _ => ([], s, .error (.strErr "following takes no arguments"))

/-- `handlerAddFeed` from `main.go` (inner, user-taking handler): creates
the feed (unique URL violation becoming its message), then auto-follows
it, ignoring a duplicate-follow violation. -/
def handlerAddFeed (db : Db) (s : AppState) (cmd : Command) (user : User) : HRes :=
  match cmd.args with
  | feedName :: feedURL :: _ =>
    match db.createFeed feedName feedURL user.id with
    | .error .uniqueViolation =>
      ([.createFeed feedName feedURL user.id], s,
        .error (.strErr ("feed url already exists: " ++ feedURL)))
    | .error e => ([.createFeed feedName feedURL user.id], s, .error (.dbErr e))
    | .ok feed =>
      let t := [Effect.createFeed feedName feedURL user.id,
        .createFeedFollow user.id feed.id]
      match db.createFeedFollow user.id feed.id with
      | .error .uniqueViolation => (t, s, .ok ())
      | .error e => (t, s, .error (.dbErr e))
      | .ok _ => (t, s, .ok ())
  | _ => ([], s, .error (.strErr "addfeed requires a name and url"))

/-- `handlerUnfollow` from `main.go` (inner, user-taking handler). -/
def handlerUnfollow (db : Db) (s : AppState) (cmd : Command) (user : User) : HRes :=
  match cmd.args with
  | [feedURL] =>
    match db.getFeedByURL feedURL with
    | .error e => ([.getFeedByURL feedURL], s, .error (.dbErr e))
    | .ok feed =>
      match db.deleteFeedFollow user.id feed.id with
      | .error e =>
        ([.getFeedByURL feedURL, .deleteFeedFollow user.id feed.id], s, .error (.dbErr e))
      | .ok _ =>
        ([.getFeedByURL feedURL, .deleteFeedFollow user.id feed.id], s, .ok ())
  | _ => ([], s, .error (.strErr "unfollow requires a url"))

/-- Go's `strconv.Atoi`: an optional sign followed by at least one decimal
digit, the value required to fit a signed 64-bit `int`; anything else is
an error (`none`). -/
def goAtoi (s : String) : Option Int :=
  match s.data with
  | [] => none
  | c :: rest =>
    let (neg, ds) :=
      if c = '-' then (true, rest)
      else if c = '+' then (false, rest)
      else (false, c :: rest)
    if ds ≠ [] ∧ ds.all Char.isDigit then
      let v : Nat := ds.foldl (fun acc d => 10 * acc + (d.toNat - 48)) 0
      let n : Int := if neg then -(v : Int) else (v : Int)
      if -(2 ^ 63) ≤ n ∧ n ≤ 2 ^ 63 - 1 then some n else none
    else none

/-- Go's `int32(n)` conversion on an in-range `int`: two's-complement
truncation to 32 bits. -/
def toInt32 (n : Int) : Int :=
  (n + 2 ^ 31).emod (2 ^ 32) - 2 ^ 31

/-- `handlerBrowse` from `main.go` (inner, user-taking handler): the limit
defaults to 2; a first argument must `Atoi`-parse to a positive value and
is then truncated to `int32` before the posts query. -/
def handlerBrowse (db : Db) (s : AppState) (cmd : Command) (user : User) : HRes :=
  match cmd.args with
  | [] =>
    match db.getPostsForUser user.id 2 with
    | .error e => ([.getPostsForUser user.id 2], s, .error (.dbErr e))
    | .ok _ => ([.getPostsForUser user.id 2], s, .ok ())
  | a :: _ =>
    match goAtoi a with
    | none => ([], s, .error (.strErr "browse limit must be a positive integer"))
    | some n =>
      if n ≤ 0 then
        ([], s, .error (.strErr "browse limit must be a positive integer"))
      else
        let limit := toInt32 n
        match db.getPostsForUser user.id limit with
        | .error e => ([.getPostsForUser user.id limit], s, .error (.dbErr e))
        | .ok _ => ([.getPostsForUser user.id limit], s, .ok ())

/-- The `addfeed` command exactly as registered in `main`:
`middlewareLoggedIn(handlerAddFeed)`. -/
def addfeedCmd (db : Db) (s : AppState) (cmd : Command) : HRes :=
  middlewareLoggedIn db handlerAddFeed s cmd

/-- The `unfollow` command exactly as registered in `main`:
`middlewareLoggedIn(handlerUnfollow)`. -/
def unfollowCmd (db : Db) (s : AppState) (cmd : Command) : HRes :=
  middlewareLoggedIn db handlerUnfollow s cmd

/-- The `browse` command exactly as registered in `main`:
`middlewareLoggedIn(handlerBrowse)`. -/
def browseCmd (db : Db) (s : AppState) (cmd : Command) : HRes :=
  middlewareLoggedIn db handlerBrowse s cmd

/-! ## The scrape cycle (`scrapeFeeds`) and post ingestion -/

/-- The candidate post `scrapeFeeds` builds for one item (`main.go` lines
357-381): title and link verbatim, an empty description string becoming an
absent description, and the published-at field filled by `parsePubDate`
when it succeeds. -/
def mkPostParams (feedId : Nat) (item : RSSItem) : PostParams :=
  { title := item.title
    url := item.link
    description := if item.description = "" then none else some item.description
    publishedAt := parsePubDate item.pubDate
    feedId := feedId }

/-- The ingestion loop of `scrapeFeeds`, generic in the store and its
insert operation: each item is inserted; a unique violation is skipped
silently (`continue`); any other failure appends a log line and the loop
proceeds; the loop itself never fails.  Returns the final store, the
`CreatePost` calls made, and the log lines in order. -/
def ingestItems {σ : Type} (insert : σ → PostParams → Except DbErr σ)
    (feedId : Nat) (st : σ) : List RSSItem → σ × List Effect × List String
  | [] => (st, [], [])
  | item :: rest =>
    match insert st (mkPostParams feedId item) with
    | .ok st2 =>
      let r := ingestItems insert feedId st2 rest
      (r.1, .createPost item.link :: r.2.1, r.2.2)
    | .error .uniqueViolation =>
      let r := ingestItems insert feedId st rest
      (r.1, .createPost item.link :: r.2.1, r.2.2)
    | .error _ =>
      let r := ingestItems insert feedId st rest
      (r.1, .createPost item.link :: r.2.1,
        ("error creating post (url=" ++ item.link ++ ")") :: r.2.2)

/-- The scrape-cycle oracle: the selected feed, the outcome of marking it
fetched, the outcome of the network fetch, and the store's insert
operation over an abstract post store `σ`. -/
structure ScrapeDb (σ : Type) where
  getNextFeedToFetch : Except DbErr Feed
  markFeedFetched : Nat → Except DbErr Unit
  fetchFeed : String → Except GoError RSSFeed
  createPost : σ → PostParams → Except DbErr σ

/-- `scrapeFeeds` from `main.go`: select the next feed, mark it fetched
(any failure ends the cycle with that error before the fetch), fetch its
URL, then ingest every item; ingestion failures never abort the cycle. -/
def scrapeFeeds {σ : Type} (db : ScrapeDb σ) (store : σ) :
    List Effect × σ × Except GoError Unit :=
  match db.getNextFeedToFetch with
  | .error e => ([.getNextFeedToFetch], store, .error (.dbErr e))
  | .ok feed =>
    match db.markFeedFetched feed.id with
    | .error e =>
      ([.getNextFeedToFetch, .markFeedFetched feed.id], store, .error (.dbErr e))
    | .ok _ =>
      match db.fetchFeed feed.url with
      | .error e =>
        ([.getNextFeedToFetch, .markFeedFetched feed.id, .fetchFeed feed.url],
          store, .error e)
      | .ok rss =>
        let r := ingestItems db.createPost feed.id store rss.channel.item
        (Effect.getNextFeedToFetch :: .markFeedFetched feed.id ::
          .fetchFeed feed.url :: r.2.1, r.1, .ok ())

/-- Modelled from the spec: the persistent store's insert for posts is out
of core scope; per spec section 6 it enforces a uniqueness constraint on
the post URL and signals the constraint violation distinctly, so a store
is a list of inserted post parameters and an insert of an already-present
URL fails with `uniqueViolation`. -/
def insertPost (store : List PostParams) (p : PostParams) :
    Except DbErr (List PostParams) :=
  if store.any (fun q => q.url = p.url) then .error .uniqueViolation
  else .ok (store ++ [p])

/-- Number of stored posts whose URL is `u`. -/
def countUrl (store : List PostParams) (u : String) : Nat :=
  (store.filter (fun q => q.url = u)).length

/-! ## The fetcher's unescape step (`fetchFeed`, `rss.go`) -/

/-- The post-decode unescape step of `fetchFeed` in `rss.go`,
parameterized by the entity unescaper `u` (Go's `html.UnescapeString`):
the code applies `u` to the channel's title and description and to every
item's title and description, and to no other field. -/
def unescapeFeed (u : String → String) (f : RSSFeed) : RSSFeed :=
  { channel :=
    { title := u f.channel.title
      link := f.channel.link
      description := u f.channel.description
      item := f.channel.item.map (fun it =>
        { it with title := u it.title, description := u it.description }) } }

/-- Replace every `&amp;` entity by `&`. -/
def unescAmp : List Char → List Char
  | '&' :: 'a' :: 'm' :: 'p' :: ';' :: rest => '&' :: unescAmp rest
  | c :: rest => c :: unescAmp rest
  | [] => []

/-- Modelled from the spec: a fragment of Go's `html.UnescapeString`
(an external collaborator) sufficient for the `&amp;` entity, used only to
exhibit concrete inputs on which unescaping is not the identity. -/
def htmlUnescape (s : String) : String :=
  String.mk (unescAmp s.data)

/-! ## Concrete fixtures used to exercise the theorems -/

/-- A state whose preferences hold no current user. -/
def stEmpty : AppState := { cfg := { dbUrl := "postgres://x", currentUserName := "" } }

/-- A state whose preferences name `alice` as the current user. -/
def stAlice : AppState := { cfg := { dbUrl := "postgres://x", currentUserName := "alice" } }

/-- A concrete user row. -/
def userAlice : User := { id := 1, name := "alice" }

/-- A concrete feed row. -/
def feedX : Feed := { id := 7, name := "blog", url := "http://x/feed.xml" }

/-- A stub oracle with plain successful or empty results everywhere. -/
def dbStub : Db :=
  { getUser := fun _ => .ok userAlice
    getFeedByURL := fun _ => .ok feedX
    createFeed := fun _ _ _ => .ok feedX
    createFeedFollow := fun _ _ => .ok { userName := "alice", feedName := "blog" }
    deleteFeedFollow := fun _ _ => .ok ()
    getFeedFollowsForUser := fun _ => .ok []
    getPostsForUser := fun _ _ => .ok []
    createUser := fun n => .ok { id := 2, name := n }
    writeConfig := fun _ => .ok () }

/-- A stub oracle whose user creation reports a unique violation. -/
def dbDupUser : Db :=
  { dbStub with createUser := fun _ => .error .uniqueViolation }

/-- A concrete RSS item. -/
def itemA : RSSItem :=
  { title := "hello", link := "http://x/a", description := "body",
    pubDate := "Mon, 02 Jan 2006 15:04:05 -0700" }

/-- A scrape oracle over a list store whose marking step fails. -/
def scrapeDbMarkFails : ScrapeDb (List PostParams) :=
  { getNextFeedToFetch := .ok feedX
    markFeedFetched := fun _ => .error (.other 7)
    fetchFeed := fun _ => .ok { channel := { title := "t", link := "l", description := "d", item := [itemA] } }
    createPost := insertPost }

/-! ## Claims -/

/-- C4: for every command, the router's run fails with an "unknown
command" error carrying the offending name when no handler is registered
under that name; otherwise it invokes the registered handler and returns
that handler's result verbatim; and registering a second handler under an
already-registered name replaces the first (last registration wins). -/
theorem c4_command_router (m : HandlersMap) (s : AppState) (cmd : Command)
    (f g : CmdHandler) (name : String) :
    (m cmd.name = none →
      runCmd m s cmd = .error (.strErr ("unknown command: " ++ cmd.name))) ∧
    (∀ h, m cmd.name = some h → runCmd m s cmd = h s cmd) ∧
    registerCmd (registerCmd m name f) name g name = some g ∧
    (∀ n, n ≠ name → registerCmd (registerCmd m name f) name g n = m n) := by
  refine ⟨?_, ?_, ?_, ?_⟩
  · intro h
    simp [runCmd, h]
  · intro hdl h
    simp [runCmd, h]
  · simp [registerCmd]
  · intro n hn
    simp [registerCmd, hn]

/-- Witness for C4 at a concrete unregistered command name. -/
theorem c4_command_router_witness :
    runCmd (fun _ => none) stEmpty { name := "nope", args := [] } =
      .error (.strErr "unknown command: nope") :=
  (c4_command_router (fun _ => none) stEmpty { name := "nope", args := [] }
    (fun _ _ => .ok ()) (fun _ _ => .ok ()) "x").1 rfl

/-- C3: the session-gating wrapper fails with the "no current user set"
message when the preferences name is empty, never consulting the inner
handler or the store; a `noRows` lookup failure becomes "user X does not
exist"; any other lookup failure is returned unchanged; and on success the
inner handler runs with the resolved user and its result is returned
unchanged. -/
theorem c3_middleware_gate (db : Db)
    (handler : Db → AppState → Command → User → HRes)
    (s : AppState) (cmd : Command) :
    (s.cfg.currentUserName = "" →
      middlewareLoggedIn db handler s cmd =
        ([], s, .error (.strErr "no current user set (run login first)"))) ∧
    (s.cfg.currentUserName ≠ "" →
      (db.getUser s.cfg.currentUserName = .error .noRows →
        middlewareLoggedIn db handler s cmd =
          ([.getUser s.cfg.currentUserName], s,
            .error (.strErr ("user " ++ s.cfg.currentUserName ++ " does not exist")))) ∧
      (∀ e, e ≠ DbErr.noRows → db.getUser s.cfg.currentUserName = .error e →
        middlewareLoggedIn db handler s cmd =
          ([.getUser s.cfg.currentUserName], s, .error (.dbErr e))) ∧
      (∀ user, db.getUser s.cfg.currentUserName = .ok user →
        middlewareLoggedIn db handler s cmd =
          (.getUser s.cfg.currentUserName :: (handler db s cmd user).1,
            (handler db s cmd user).2.1, (handler db s cmd user).2.2))) := by
  refine ⟨?_, fun hne => ⟨?_, ?_, ?_⟩⟩
  · intro h
    simp [middlewareLoggedIn, h]
  · intro h
    simp [middlewareLoggedIn, hne, h]
  · intro e he h
    cases e with
    | uniqueViolation => simp [middlewareLoggedIn, hne, h]
    | noRows => exact absurd rfl he
    | other c => simp [middlewareLoggedIn, hne, h]
  · intro user h
    simp [middlewareLoggedIn, hne, h]

/-- Witness for C3 at a concrete empty-preferences state. -/
theorem c3_middleware_gate_witness :
    middlewareLoggedIn dbStub handlerAddFeed stEmpty { name := "addfeed", args := [] } =
      ([], stEmpty, .error (.strErr "no current user set (run login first)")) :=
  (c3_middleware_gate dbStub handlerAddFeed stEmpty { name := "addfeed", args := [] }).1 rfl

/-- Every event the ingestion loop records is a `createPost` call. -/
theorem ingestItems_trace_createPost {σ : Type}
    (insert : σ → PostParams → Except DbErr σ) (feedId : Nat) (st : σ)
    (items : List RSSItem) :
    ∀ ev ∈ (ingestItems insert feedId st items).2.1, ∃ u, ev = Effect.createPost u := by
  induction items generalizing st with
  | nil =>
    intro ev hev
    simp [ingestItems] at hev
  | cons item rest ih =>
    intro ev hev
    unfold ingestItems at hev
    split at hev
    · rcases List.mem_cons.mp hev with h | h
      · exact ⟨item.link, h⟩
      · exact ih _ ev h
    · rcases List.mem_cons.mp hev with h | h
      · exact ⟨item.link, h⟩
      · exact ih _ ev h
    · rcases List.mem_cons.mp hev with h | h
      · exact ⟨item.link, h⟩
      · exact ih _ ev h

/-- C1: in every scrape cycle, if the marking step fails the cycle ends
with that error and no fetch call is recorded; and whenever a fetch call
appears in the cycle's trace, the selected feed was marked fetched
successfully and the marking call occupies a strictly earlier position of
the trace than the fetch call. -/
theorem c1_mark_before_fetch {σ : Type} (db : ScrapeDb σ) (store : σ) :
    (∀ feed e, db.getNextFeedToFetch = .ok feed →
      db.markFeedFetched feed.id = .error e →
      scrapeFeeds db store =
        ([.getNextFeedToFetch, .markFeedFetched feed.id], store, .error (.dbErr e))) ∧
    (∀ url, Effect.fetchFeed url ∈ (scrapeFeeds db store).1 →
      ∃ feed, db.getNextFeedToFetch = .ok feed ∧ url = feed.url ∧
        db.markFeedFetched feed.id = .ok () ∧
        ∃ i j, i < j ∧
          (scrapeFeeds db store).1.get? i = some (.markFeedFetched feed.id) ∧
          (scrapeFeeds db store).1.get? j = some (.fetchFeed url)) := by
  constructor
  · intro feed e hsel hmark
    simp [scrapeFeeds, hsel, hmark]
  · intro url hmem
    rcases hsel : db.getNextFeedToFetch with e | feed
    · simp [scrapeFeeds, hsel] at hmem
    · rcases hmark : db.markFeedFetched feed.id with e | u
      · simp [scrapeFeeds, hsel, hmark] at hmem
      · rcases hfetch : db.fetchFeed feed.url with e | rss
        · have hurl : url = feed.url := by
            simp only [scrapeFeeds, hsel, hmark, hfetch] at hmem
            rcases List.mem_cons.mp hmem with h | h
            · cases h
            rcases List.mem_cons.mp h with h2 | h2
            · cases h2
            rcases List.mem_cons.mp h2 with h3 | h3
            · cases h3; rfl
            · cases h3
          refine ⟨feed, rfl, hurl, by cases u; exact hmark, 1, 2, by omega, ?_, ?_⟩
          · simp [scrapeFeeds, hsel, hmark, hfetch]
          · simp [scrapeFeeds, hsel, hmark, hfetch, hurl]
        · have hurl : url = feed.url := by
            simp only [scrapeFeeds, hsel, hmark, hfetch] at hmem
            rcases List.mem_cons.mp hmem with h | h
            · cases h
            rcases List.mem_cons.mp h with h2 | h2
            · cases h2
            rcases List.mem_cons.mp h2 with h3 | h3
            · cases h3; rfl
            · rcases ingestItems_trace_createPost db.createPost feed.id store
                rss.channel.item _ h3 with ⟨u2, hu2⟩
              cases hu2
          refine ⟨feed, rfl, hurl, by cases u; exact hmark, 1, 2, by omega, ?_, ?_⟩
          · simp [scrapeFeeds, hsel, hmark, hfetch]
          · simp [scrapeFeeds, hsel, hmark, hfetch, hurl]

/-- Witness for C1 at a concrete oracle whose marking step fails. -/
theorem c1_mark_before_fetch_witness :
    scrapeFeeds scrapeDbMarkFails ([] : List PostParams) =
      ([.getNextFeedToFetch, .markFeedFetched feedX.id], [], .error (.dbErr (.other 7))) :=
  (c1_mark_before_fetch scrapeDbMarkFails []).1 feedX (.other 7) rfl rfl

/-- A URL counted as absent from the store makes the any-test of the
uniqueness check false. -/
theorem countUrl_zero_any_false (store : List PostParams) (u : String)
    (h : countUrl store u = 0) :
    store.any (fun q => q.url = u) = false := by
  simp only [countUrl, List.length_eq_zero, List.filter_eq_nil_iff] at h
  simp only [List.any_eq_false]
  intro x hx
  simpa using h x hx

/-- `countUrl` distributes over store append. -/
theorem countUrl_append (a b : List PostParams) (u : String) :
    countUrl (a ++ b) u = countUrl a u + countUrl b u := by
  simp [countUrl, List.filter_append]

/-- C2: an item whose insert reports a unique violation is skipped with no
log line and ingestion continues on the same store; an item whose insert
fails any other way is skipped with a log line and ingestion continues;
a cycle whose fetch succeeded ends without error no matter how the inserts
fail; and ingesting the same item against the URL-unique store across two
cycles leaves exactly one stored post with that URL. -/
theorem c2_ingestion_isolation :
    (∀ (σ : Type) (insert : σ → PostParams → Except DbErr σ)
      (fid : Nat) (st : σ) (item : RSSItem) (rest : List RSSItem),
      insert st (mkPostParams fid item) = .error .uniqueViolation →
      ingestItems insert fid st (item :: rest) =
        ((ingestItems insert fid st rest).1,
          .createPost item.link :: (ingestItems insert fid st rest).2.1,
          (ingestItems insert fid st rest).2.2)) ∧
    (∀ (σ : Type) (insert : σ → PostParams → Except DbErr σ)
      (fid : Nat) (st : σ) (item : RSSItem) (rest : List RSSItem)
      (e : DbErr), e ≠ .uniqueViolation →
      insert st (mkPostParams fid item) = .error e →
      ingestItems insert fid st (item :: rest) =
        ((ingestItems insert fid st rest).1,
          .createPost item.link :: (ingestItems insert fid st rest).2.1,
          ("error creating post (url=" ++ item.link ++ ")") ::
            (ingestItems insert fid st rest).2.2)) ∧
    (∀ (σ : Type) (db : ScrapeDb σ) (store : σ) (feed : Feed) (rss : RSSFeed),
      db.getNextFeedToFetch = .ok feed → db.markFeedFetched feed.id = .ok () →
      db.fetchFeed feed.url = .ok rss →
      (scrapeFeeds db store).2.2 = .ok ()) ∧
    (∀ (item : RSSItem) (fid : Nat) (store : List PostParams),
      countUrl store item.link = 0 →
      countUrl (ingestItems insertPost fid
        (ingestItems insertPost fid store [item]).1 [item]).1 item.link = 1) := by
  refine ⟨?_, ?_, ?_, ?_⟩
  · intro σ insert fid st item rest h
    simp [ingestItems, h]
  · intro σ insert fid st item rest e hne h
    cases e with
    | uniqueViolation => exact absurd rfl hne
    | noRows => simp [ingestItems, h]
    | other c => simp [ingestItems, h]
  · intro σ db store feed rss hsel hmark hfetch
    simp [scrapeFeeds, hsel, hmark, hfetch]
  · intro item fid store h
    have hany : store.any (fun q => q.url = (mkPostParams fid item).url) = false :=
      countUrl_zero_any_false store item.link h
    have h1 : ingestItems insertPost fid store [item] =
        (store ++ [mkPostParams fid item], [.createPost item.link], []) := by
      simp [ingestItems, insertPost, hany]
    have hany2 : (store ++ [mkPostParams fid item]).any
        (fun q => q.url = (mkPostParams fid item).url) = true := by
      simp
    have h2 : ingestItems insertPost fid (store ++ [mkPostParams fid item]) [item] =
        (store ++ [mkPostParams fid item], [.createPost item.link], []) := by
      simp [ingestItems, insertPost, hany2]
    rw [h1, h2]
    have : countUrl [mkPostParams fid item] item.link = 1 := by
      simp [countUrl, mkPostParams]
    rw [countUrl_append, h, this]

/-- Witness for C2 at a concrete item over the empty store. -/
theorem c2_ingestion_isolation_witness :
    countUrl (ingestItems insertPost 7
      (ingestItems insertPost 7 [] [itemA]).1 [itemA]).1 itemA.link = 1 :=
  c2_ingestion_isolation.2.2.2 itemA 7 [] rfl

/-- C5: the candidate post built for an item copies title and link
verbatim, carries a description exactly when the item's description is
non-empty (and then carries that very string), and carries a published-at
timestamp exactly when the publication-date string parses (and then
carries the parsed value). -/
theorem c5_candidate_post (fid : Nat) (item : RSSItem) :
    (mkPostParams fid item).title = item.title ∧
    (mkPostParams fid item).url = item.link ∧
    ((mkPostParams fid item).description = none ↔ item.description = "") ∧
    (∀ d, (mkPostParams fid item).description = some d → d = item.description) ∧
    ((mkPostParams fid item).publishedAt.isSome ↔ (parsePubDate item.pubDate).isSome) ∧
    (∀ t, parsePubDate item.pubDate = some t →
      (mkPostParams fid item).publishedAt = some t) := by
  refine ⟨rfl, rfl, ?_, ?_, Iff.rfl, ?_⟩
  · by_cases h : item.description = "" <;> simp [mkPostParams, h]
  · intro d hd
    by_cases h : item.description = "" <;> simp [mkPostParams, h] at hd
    exact hd.symm
  · intro t ht
    simpa [mkPostParams] using ht

/-- Witness for C5 at a concrete item with a non-empty description. -/
theorem c5_candidate_post_witness :
    (mkPostParams 7 itemA).description = some "body" ∧ "body" = itemA.description :=
  ⟨rfl, (c5_candidate_post 7 itemA).2.2.2.1 "body" rfl⟩

/-- C6: the date normalizer returns "absent", not an error, on the empty
string and on any string matched by no accepted layout; it returns the
first successful parse in layout order; and it yields a timestamp for the
two concrete RFC-1123-style vectors while yielding "absent" for the empty
string. -/
theorem c6_date_normalizer :
    parsePubDate "" = none ∧
    (∀ s, (∀ L ∈ pubDateLayouts, matchLayout L s = none) → parsePubDate s = none) ∧
    (∀ s t, matchLayout .rfc1123z s = some t → parsePubDate s = some t) ∧
    (∀ s t, matchLayout .rfc1123z s = none → matchLayout .rfc1123 s = some t →
      parsePubDate s = some t) ∧
    (∀ s t, matchLayout .rfc1123z s = none → matchLayout .rfc1123 s = none →
      matchLayout .dayFirstNamed s = some t → parsePubDate s = some t) ∧
    (parsePubDate "Mon, 02 Jan 2006 15:04:05 -0700").isSome = true ∧
    (parsePubDate "02 Jan 2006 15:04:05 GMT").isSome = true := by
  refine ⟨by decide, ?_, ?_, ?_, ?_, by decide, by decide⟩
  · intro s h
    have h1 := h .rfc1123z (by simp [pubDateLayouts])
    have h2 := h .rfc1123 (by simp [pubDateLayouts])
    have h3 := h .dayFirstNamed (by simp [pubDateLayouts])
    simp [parsePubDate, pubDateLayouts, tryLayouts, h1, h2, h3]
  · intro s t h
    simp [parsePubDate, pubDateLayouts, tryLayouts, h]
  · intro s t h1 h2
    simp [parsePubDate, pubDateLayouts, tryLayouts, h1, h2]
  · intro s t h1 h2 h3
    simp [parsePubDate, pubDateLayouts, tryLayouts, h1, h2, h3]

/-- Witness for C6 at a concrete string matching no layout. -/
theorem c6_date_normalizer_witness :
    parsePubDate "not a date" = none :=
  c6_date_normalizer.2.1 "not a date" (by decide)

/-- A decoded feed whose channel link, item link and raw publication-date
string each contain an `&amp;` entity. -/
def feedAmp : RSSFeed :=
  ⟨⟨"t&amp;t", "http://x/?a=1&amp;b=2", "d",
    [⟨"it", "http://x/p?a=1&amp;b=2", "d2", "a&amp;b"⟩]⟩⟩

/-- Counterexample to C7: on `feedAmp` the returned channel link, item
link and raw publication-date string are not the unescaped forms of the
decoded values — `fetchFeed` leaves those three fields untouched. -/
theorem c7_counterexample :
    (unescapeFeed htmlUnescape feedAmp).channel.link ≠
      htmlUnescape feedAmp.channel.link ∧
    ((unescapeFeed htmlUnescape feedAmp).channel.item.map RSSItem.link ≠
      feedAmp.channel.item.map (fun it => htmlUnescape it.link)) ∧
    ((unescapeFeed htmlUnescape feedAmp).channel.item.map RSSItem.pubDate ≠
      feedAmp.channel.item.map (fun it => htmlUnescape it.pubDate)) := by
  refine ⟨?_, ?_, ?_⟩ <;> decide

/-- C7 as amended: the unescaper is applied to exactly the channel's title
and description and every item's title and description; the channel link
and every item's link and raw publication-date string are returned exactly
as decoded. -/
theorem c7_unescaped_fields (u : String → String) (f : RSSFeed) :
    (unescapeFeed u f).channel.title = u f.channel.title ∧
    (unescapeFeed u f).channel.description = u f.channel.description ∧
    (unescapeFeed u f).channel.link = f.channel.link ∧
    (unescapeFeed u f).channel.item =
      f.channel.item.map (fun it =>
        { title := u it.title, link := it.link,
          description := u it.description, pubDate := it.pubDate }) :=
  ⟨rfl, rfl, rfl, rfl⟩

/-- Counterexample to C8: the session-gated `follow` command invoked with
no arguments while no current user is set fails with its argument-arity
message, not with a "no current user set" error. -/
theorem c8_counterexample :
    handlerFollow dbStub stEmpty { name := "follow", args := [] } =
      ([], stEmpty, .error (.strErr "follow requires a url")) ∧
    GoError.strErr "follow requires a url" ≠ .strErr "no current user set" ∧
    GoError.strErr "follow requires a url" ≠
      .strErr "no current user set (run login first)" ∧
    stEmpty.cfg.currentUserName = "" := by
  refine ⟨rfl, by decide, by decide, rfl⟩

/-- C8 as amended: with no current user set, the middleware-gated commands
`addfeed`, `unfollow` and `browse` fail with the "no current user set"
message for every argument list; `follow` and `following` fail with that
message whenever their argument arity is correct, and with their usage
error otherwise; and in every case no store access occurs. -/
theorem c8_gated_commands (db : Db) (s : AppState) (cmd : Command)
    (hs : s.cfg.currentUserName = "") :
    addfeedCmd db s cmd =
      ([], s, .error (.strErr "no current user set (run login first)")) ∧
    unfollowCmd db s cmd =
      ([], s, .error (.strErr "no current user set (run login first)")) ∧
    browseCmd db s cmd =
      ([], s, .error (.strErr "no current user set (run login first)")) ∧
    (∀ url, cmd.args = [url] →
      handlerFollow db s cmd = ([], s, .error (.strErr "no current user set"))) ∧
    (cmd.args = [] →
      handlerFollowing db s cmd = ([], s, .error (.strErr "no current user set"))) ∧
    (cmd.args.length ≠ 1 →
      handlerFollow db s cmd = ([], s, .error (.strErr "follow requires a url"))) ∧
    (cmd.args ≠ [] →
      handlerFollowing db s cmd =
        ([], s, .error (.strErr "following takes no arguments"))) ∧
    (handlerFollow db s cmd).1 = [] ∧
    (handlerFollowing db s cmd).1 = [] := by
  refine ⟨?_, ?_, ?_, ?_, ?_, ?_, ?_, ?_, ?_⟩
  · simp [addfeedCmd, middlewareLoggedIn, hs]
  · simp [unfollowCmd, middlewareLoggedIn, hs]
  · simp [browseCmd, middlewareLoggedIn, hs]
  · intro url hargs
    rcases cmd with ⟨name, args⟩
    simp only at hargs
    subst hargs
    simp [handlerFollow, hs]
  · intro hargs
    rcases cmd with ⟨name, args⟩
    simp only at hargs
    subst hargs
    simp [handlerFollowing, hs]
  · intro hlen
    rcases cmd with ⟨name, args⟩
    simp only at hlen
    match args, hlen with
    | [], _ => simp [handlerFollow]
    | [url], hlen => exact absurd rfl hlen
    | a :: b :: rest, _ => simp [handlerFollow]
  · intro hne
    rcases cmd with ⟨name, args⟩
    simp only at hne
    match args, hne with
    | [], hne => exact absurd rfl hne
    | a :: rest, _ => simp [handlerFollowing]
  · rcases cmd with ⟨name, args⟩
    match args with
    | [] => simp [handlerFollow]
    | [url] => simp [handlerFollow, hs]
    | a :: b :: rest => simp [handlerFollow]
  · rcases cmd with ⟨name, args⟩
    match args with
    | [] => simp [handlerFollowing, hs]
    | a :: rest => simp [handlerFollowing]

/-- Witness for C8 at a concrete empty-preferences state, exercising both
the correct-arity gate failure of `follow` and the wrong-arity usage
errors of `follow` and `following`. -/
theorem c8_gated_commands_witness :
    (handlerFollow dbStub stEmpty { name := "follow", args := ["http://x/feed.xml"] } =
      ([], stEmpty, .error (.strErr "no current user set"))) ∧
    (handlerFollow dbStub stEmpty { name := "follow", args := ["a", "b"] } =
      ([], stEmpty, .error (.strErr "follow requires a url"))) ∧
    (handlerFollowing dbStub stEmpty { name := "following", args := ["a"] } =
      ([], stEmpty, .error (.strErr "following takes no arguments"))) :=
  ⟨(c8_gated_commands dbStub stEmpty { name := "follow", args := ["http://x/feed.xml"] }
      rfl).2.2.2.1 "http://x/feed.xml" rfl,
    (c8_gated_commands dbStub stEmpty { name := "follow", args := ["a", "b"] }
      rfl).2.2.2.2.2.1 (by decide),
    (c8_gated_commands dbStub stEmpty { name := "following", args := ["a"] }
      rfl).2.2.2.2.2.2.1 (by decide)⟩

/-- C9: registering a name whose creation reports a unique violation
fails with "user X already exists" and leaves the state and the
preferences untouched (no write call is recorded); and the preferences
write happens exactly when the user creation succeeded. -/
theorem c9_register_duplicate (db : Db) (s : AppState) (cmd : Command)
    (name : String) (rest : List String) (hargs : cmd.args = name :: rest) :
    (db.createUser name = .error .uniqueViolation →
      handlerRegister db s cmd =
        ([.createUser name], s,
          .error (.strErr ("user " ++ name ++ " already exists")))) ∧
    (∀ user, db.createUser name = .ok user →
      (handlerRegister db s cmd).1 = [.createUser name, .writeConfig name] ∧
      (handlerRegister db s cmd).2.1 =
        { cfg := { s.cfg with currentUserName := name } }) := by
  rcases cmd with ⟨cname, args⟩
  simp only at hargs
  subst hargs
  constructor
  · intro h
    simp [handlerRegister, h]
  · intro user h
    rcases hw : db.writeConfig { s.cfg with currentUserName := name } with e | u
    · constructor <;> simp [handlerRegister, h, hw]
    · constructor <;> simp [handlerRegister, h, hw]

/-- Witness for C9 at a concrete oracle reporting a duplicate name. -/
theorem c9_register_duplicate_witness :
    handlerRegister dbDupUser stEmpty { name := "register", args := ["bob"] } =
      ([.createUser "bob"], stEmpty, .error (.strErr "user bob already exists")) :=
  (c9_register_duplicate dbDupUser stEmpty { name := "register", args := ["bob"] }
    "bob" [] rfl).1 rfl

/-- Counterexample to C10: `browse 2147483648` parses as a positive
decimal integer, yet the limit placed in the posts query is the 32-bit
truncation `-2147483648`, not the parsed argument. -/
theorem c10_counterexample :
    handlerBrowse dbStub stAlice { name := "browse", args := ["2147483648"] } userAlice =
      ([.getPostsForUser 1 (-2147483648)], stAlice, .ok ()) ∧
    goAtoi "2147483648" = some 2147483648 ∧
    Effect.getPostsForUser 1 2147483648 ∉
      (handlerBrowse dbStub stAlice { name := "browse", args := ["2147483648"] }
        userAlice).1 := by
  refine ⟨rfl, by decide, by decide⟩

/-- C10 as amended: with an explicit first argument, `browse` fails with
"browse limit must be a positive integer" before any store query when the
argument does not parse as a signed 64-bit decimal integer or parses to a
value at most zero; otherwise the query is made with the parsed value
truncated to a signed 32-bit integer in place of the default limit 2 (the
two agree for arguments below 2^31). -/
theorem c10_browse_limit (db : Db) (s : AppState) (cmd : Command) (user : User)
    (a : String) (rest : List String) (hargs : cmd.args = a :: rest) :
    (goAtoi a = none →
      handlerBrowse db s cmd user =
        ([], s, .error (.strErr "browse limit must be a positive integer"))) ∧
    (∀ n, goAtoi a = some n → n ≤ 0 →
      handlerBrowse db s cmd user =
        ([], s, .error (.strErr "browse limit must be a positive integer"))) ∧
    (∀ n, goAtoi a = some n → 0 < n →
      (handlerBrowse db s cmd user).1 = [.getPostsForUser user.id (toInt32 n)]) ∧
    (∀ n, goAtoi a = some n → 0 < n → n < 2 ^ 31 → toInt32 n = n) := by
  rcases cmd with ⟨cname, args⟩
  simp only at hargs
  subst hargs
  refine ⟨?_, ?_, ?_, ?_⟩
  · intro h
    simp [handlerBrowse, h]
  · intro n h hle
    simp [handlerBrowse, h, hle]
  · intro n h hpos
    have hle : ¬n ≤ 0 := by omega
    rcases hq : db.getPostsForUser user.id (toInt32 n) with e | posts <;>
      simp [handlerBrowse, h, hle, hq]
  · intro n h hpos hlt
    unfold toInt32
    have h1 : (0 : Int) ≤ n + 2 ^ 31 := by omega
    have h2 : n + 2 ^ 31 < 2 ^ 32 := by omega
    have h3 : (n + 2 ^ 31).emod (2 ^ 32) = n + 2 ^ 31 := Int.emod_eq_of_lt h1 h2
    rw [h3]
    omega

/-- Witness for C10 at a concrete in-range limit argument. -/
theorem c10_browse_limit_witness :
    (handlerBrowse dbStub stAlice { name := "browse", args := ["5"] } userAlice).1 =
      [.getPostsForUser userAlice.id (toInt32 5)] ∧ toInt32 5 = 5 :=
  ⟨(c10_browse_limit dbStub stAlice { name := "browse", args := ["5"] } userAlice
      "5" [] rfl).2.2.1 5 (by decide) (by decide),
    (c10_browse_limit dbStub stAlice { name := "browse", args := ["5"] } userAlice
      "5" [] rfl).2.2.2 5 (by decide) (by decide) (by decide)⟩

end Gator
